import Mathlib

/-!
Verification of the AdvReactForm repository: form validation
(signupAction / isNotEmpty), the useInput custom hook, the optimistic
vote controller (useOptimistic reducer, upvote/downvote actions, button
disabling) and the shared opinion store operation upvoteOpinion.
-/

namespace AdvReactForm

/-! ## Form data and the signup action (NewOpinion component) -/

/-- A submitted form: a list of (name, value) entries.  FormData.get
returns the first value for a key, or null when the key is absent;
null is modelled as none. -/
def formDataGet (formData : List (String × String)) (key : String) : Option String :=
  (formData.find? (fun entry => entry.fst == key)).map Prod.snd

/-- The form of the NewOpinion component always submits the three named
fields userName, title and body. -/
def mkForm (userName title body : String) : List (String × String) :=
  [("userName", userName), ("title", title), ("body", body)]

/-- JavaScript String.prototype.trim: removes leading and trailing
whitespace from a string, embedded structurally over the underlying
character list so that it evaluates by kernel reduction. -/
def jsTrim (s : String) : String :=
  ⟨((s.data.dropWhile Char.isWhitespace).reverse.dropWhile Char.isWhitespace).reverse⟩

/-- isNotEmpty(value): value.trim() !== "".  When value is null (the key
was absent from the form data), null.trim() throws a TypeError, modelled
as Except.error. -/
def isNotEmpty (value : Option String) : Except String Bool :=
  match value with
  | none => Except.error "TypeError: Cannot read properties of null (reading trim)"
  | some v => Except.ok (jsTrim v != "")

/-- The three validation messages pushed by signupAction, in push order:
userName first, then title, then body. -/
def errorMessages (uOk tOk bOk : Bool) : List String :=
  (if !uOk then ["Please Enter a valid username"] else []) ++
  (if !tOk then ["Please Enter a valid title"] else []) ++
  (if !bOk then ["Please Enter a valid body"] else [])

/-- The values echoed back to the form on validation failure. -/
structure EnteredValues where
  userName : String
  title : String
  body : String
  deriving Repr, DecidableEq

/-- The state returned by signupAction: errors is null (none) on success
and the non-empty message list on failure; enteredValues is present only
on failure. -/
structure FormState where
  errors : Option (List String)
  enteredValues : Option EnteredValues
  deriving Repr, DecidableEq

/-- signupAction(prevFormState, formData): reads userName, title and body
from the form data, collects one message per empty field, and returns
either the errors plus the entered values, or an errors: null success
state.  prevFormState is unused by the source, so it is not a parameter.
A thrown TypeError (a field read as null) is the Except.error case. -/
def signupAction (formData : List (String × String)) : Except String FormState :=
  let userName := formDataGet formData "userName"
  let title := formDataGet formData "title"
  let body := formDataGet formData "body"
  match isNotEmpty userName with
  | Except.error e => Except.error e
  | Except.ok uOk =>
    match isNotEmpty title with
    | Except.error e => Except.error e
    | Except.ok tOk =>
      match isNotEmpty body with
      | Except.error e => Except.error e
      | Except.ok bOk =>
        let errors := errorMessages uOk tOk bOk
        if errors.length ≠ 0 then
          Except.ok { errors := some errors
                      enteredValues := some { userName := userName.getD ""
                                              title := title.getD ""
                                              body := body.getD "" } }
        else
          Except.ok { errors := none, enteredValues := none }

/-- The result of signupAction on the three-field form of the NewOpinion
component: the gets always succeed, so the action reduces to the pure
validation outcome over the three submitted strings. -/
theorem signupAction_mkForm (u t b : String) :
    signupAction (mkForm u t b) =
      (let errors := errorMessages (jsTrim u != "") (jsTrim t != "") (jsTrim b != "")
       if errors.length ≠ 0 then
         Except.ok { errors := some errors, enteredValues := some ⟨u, t, b⟩ }
       else Except.ok { errors := none, enteredValues := none }) := rfl

/-- Claim C1: for every combination of empty and non-empty userName, title
and body (empty meaning the value trims to the empty string), the
validation list built by signupAction contains exactly one message per
empty field, in the order userName, title, body, and is returned to the
caller whenever it is non-empty; in particular, for userName empty,
title Good and body Nice, the errors list is exactly the single
username message and the entered values are echoed back. -/
theorem signup_validation_messages (u t b : String) :
    ((errorMessages (jsTrim u != "") (jsTrim t != "") (jsTrim b != "")).count
        "Please Enter a valid username" = if jsTrim u = "" then 1 else 0) ∧
    ((errorMessages (jsTrim u != "") (jsTrim t != "") (jsTrim b != "")).count
        "Please Enter a valid title" = if jsTrim t = "" then 1 else 0) ∧
    ((errorMessages (jsTrim u != "") (jsTrim t != "") (jsTrim b != "")).count
        "Please Enter a valid body" = if jsTrim b = "" then 1 else 0) ∧
    List.Sublist (errorMessages (jsTrim u != "") (jsTrim t != "") (jsTrim b != ""))
      ["Please Enter a valid username", "Please Enter a valid title",
       "Please Enter a valid body"] ∧
    (errorMessages (jsTrim u != "") (jsTrim t != "") (jsTrim b != "") ≠ [] →
      signupAction (mkForm u t b) =
        Except.ok
          { errors := some (errorMessages (jsTrim u != "") (jsTrim t != "") (jsTrim b != ""))
            enteredValues := some ⟨u, t, b⟩ }) ∧
    signupAction (mkForm "" "Good" "Nice") =
      Except.ok { errors := some ["Please Enter a valid username"]
                  enteredValues := some ⟨"", "Good", "Nice"⟩ } := by
  have hmain :
      ((errorMessages (jsTrim u != "") (jsTrim t != "") (jsTrim b != "")).count
          "Please Enter a valid username" = if jsTrim u = "" then 1 else 0) ∧
      ((errorMessages (jsTrim u != "") (jsTrim t != "") (jsTrim b != "")).count
          "Please Enter a valid title" = if jsTrim t = "" then 1 else 0) ∧
      ((errorMessages (jsTrim u != "") (jsTrim t != "") (jsTrim b != "")).count
          "Please Enter a valid body" = if jsTrim b = "" then 1 else 0) ∧
      List.Sublist (errorMessages (jsTrim u != "") (jsTrim t != "") (jsTrim b != ""))
        ["Please Enter a valid username", "Please Enter a valid title",
         "Please Enter a valid body"] := by
    by_cases hu : jsTrim u = "" <;> by_cases ht : jsTrim t = "" <;>
      by_cases hb : jsTrim b = "" <;> simp [errorMessages, hu, ht, hb]
  refine ⟨hmain.1, hmain.2.1, hmain.2.2.1, hmain.2.2.2, ?_, rfl⟩
  intro h
  rw [signupAction_mkForm]
  simp [List.length_eq_zero, h]

/-- Witness for C1: a concrete submission with empty title and body is
rejected with exactly the title and body messages, in that order. -/
theorem signup_validation_messages_witness :
    signupAction (mkForm "x" "" "") =
      Except.ok { errors := some ["Please Enter a valid title", "Please Enter a valid body"]
                  enteredValues := some ⟨"x", "", ""⟩ } :=
  (signup_validation_messages "x" "" "").2.2.2.2.1 (by decide)

/-- Claim C5: signupAction returns exactly one of two shapes on every
submission of the three-field form: on success (all fields non-empty
after trimming) no errors and no echoed values, and on validation
failure a non-empty error list together with the submitted values echoed
character for character. -/
theorem signup_result_shapes (u t b : String) :
    (jsTrim u ≠ "" ∧ jsTrim t ≠ "" ∧ jsTrim b ≠ "" →
       signupAction (mkForm u t b) =
         Except.ok { errors := none, enteredValues := none }) ∧
    (¬(jsTrim u ≠ "" ∧ jsTrim t ≠ "" ∧ jsTrim b ≠ "") →
       ∃ msgs, msgs ≠ [] ∧
         signupAction (mkForm u t b) =
           Except.ok { errors := some msgs, enteredValues := some ⟨u, t, b⟩ }) := by
  rw [signupAction_mkForm]
  by_cases hu : jsTrim u = "" <;> by_cases ht : jsTrim t = "" <;>
    by_cases hb : jsTrim b = "" <;> simp [errorMessages, hu, ht, hb]

/-- Witness for C5: a fully filled form succeeds with no errors and no
echoed values. -/
theorem signup_result_shapes_witness :
    signupAction (mkForm "Ana" "Good" "Nice") =
      Except.ok { errors := none, enteredValues := none } :=
  (signup_result_shapes "Ana" "Good" "Nice").1 (by decide)

/-- Claim C10: signupAction is exception-free exactly when the form data
contains string values for the keys userName, title and body; when any
of the three keys is absent, formData.get yields null and isNotEmpty
throws a TypeError instead of adding a validation message. -/
theorem signup_missing_key_throws (fd : List (String × String)) :
    ((formDataGet fd "userName" = none ∨ formDataGet fd "title" = none ∨
        formDataGet fd "body" = none) →
      signupAction fd =
        Except.error "TypeError: Cannot read properties of null (reading trim)") ∧
    (∀ u t b, formDataGet fd "userName" = some u → formDataGet fd "title" = some t →
        formDataGet fd "body" = some b → ∃ st, signupAction fd = Except.ok st) := by
  constructor
  · intro h
    cases hu : formDataGet fd "userName" with
    | none => simp [signupAction, hu, isNotEmpty]
    | some su =>
      cases ht : formDataGet fd "title" with
      | none => simp [signupAction, hu, ht, isNotEmpty]
      | some st =>
        cases hb : formDataGet fd "body" with
        | none => simp [signupAction, hu, ht, hb, isNotEmpty]
        | some sb => simp [hu, ht, hb] at h
  · intro u t b hu ht hb
    simp only [signupAction, hu, ht, hb, isNotEmpty]
    split <;> exact ⟨_, rfl⟩

/-- Witness for C10: submitting form data that lacks the body key throws
the TypeError, while the full three-field form does not. -/
theorem signup_missing_key_throws_witness :
    signupAction [("userName", "a"), ("title", "b")] =
      Except.error "TypeError: Cannot read properties of null (reading trim)" :=
  (signup_missing_key_throws [("userName", "a"), ("title", "b")]).1
    (Or.inr (Or.inr (by decide)))

/-! ## Shared opinion store (OpinionsContextProvider) -/

/-- An opinion record: id, author name, title, body and vote count. -/
structure Opinion where
  id : Nat
  userName : String
  title : String
  body : String
  votes : Int
  deriving Repr, DecidableEq

/-- upvoteOpinion(id): maps over the previous opinions, replacing each
opinion whose id matches with a copy whose votes field is incremented by
one, and returning every other opinion unchanged. -/
def upvoteOpinion (id : Nat) (prevOpinions : List Opinion) : List Opinion :=
  prevOpinions.map (fun opinion =>
    if opinion.id = id then { opinion with votes := opinion.votes + 1 } else opinion)

/-! ## Optimistic vote controller (Opinion component tutorial code) -/

/-- The useOptimistic reducer: (prevVotes, mode) => mode === "up" ?
prevVotes + 1 : prevVotes - 1.  Any mode other than the string up takes
the decrement branch, exactly as in the source. -/
def voteReducer (prevVotes : Int) (mode : String) : Int :=
  if mode == "up" then prevVotes + 1 else prevVotes - 1

/-- The two mode arguments the vote actions pass to
setVotesOptimistically: the strings up and down. -/
inductive VoteMode where
  | up
  | down
  deriving Repr, DecidableEq

/-- The string literal each vote action passes for its mode. -/
def modeArg : VoteMode → String
  | VoteMode.up => "up"
  | VoteMode.down => "down"

/-- Modelled from the spec: the commit boundary of the shared opinion
store for a single item, as the per-item effect of upvoteOpinion and
downvoteOpinion on the authoritative count.  upvoteOpinion (present in
the source) adds one to the matching votes field; downvoteOpinion is
only declared in the source (its body is elided), and the spec states
the commit persists the same plus-or-minus-one delta. -/
def commitVote (votes : Int) : VoteMode → Int
  | VoteMode.up => votes + 1
  | VoteMode.down => votes - 1

/-- Modelled from the spec: the per-item optimistic vote controller
state.  votes is the authoritative count held by the shared opinion
store; pending records which vote action, if any, has applied its
optimistic delta and not yet had its commit settle. -/
structure VoteController where
  votes : Int
  pending : Option VoteMode
  deriving Repr, DecidableEq

/-- upvotePending: true while the upvote form action is executing. -/
def upvotePending (c : VoteController) : Bool :=
  c.pending == some VoteMode.up

/-- downvotePending: true while the downvote form action is executing. -/
def downvotePending (c : VoteController) : Bool :=
  c.pending == some VoteMode.down

/-- The disabled prop of both vote buttons:
upvotePending || downvotePending. -/
def voteButtonDisabled (c : VoteController) : Bool :=
  upvotePending c || downvotePending c

/-- The vote count the user sees: useOptimistic shows the authoritative
count with the reducer applied once for the pending action, and
collapses back to the authoritative count when nothing is pending. -/
def optimisticVotes (c : VoteController) : Int :=
  match c.pending with
  | none => c.votes
  | some m => voteReducer c.votes (modeArg m)

/-- The events a vote controller reacts to: a click on one of the two
vote buttons, and the settling of the in-flight commit with success or
failure. -/
inductive VoteEvent where
  | clickUp
  | clickDown
  | commitSucceed
  | commitFail
  deriving Repr, DecidableEq

/-- Modelled from the spec: one transition of the optimistic vote state
machine.  A click on a disabled button does nothing; an enabled click
applies the optimistic delta and starts the commit (upvoteAction and
downvoteAction call setVotesOptimistically first, then await the store
commit).  A successful commit mutates the authoritative count by the
committed delta and discards the shadow; a failed commit discards the
shadow without touching the authoritative count. -/
def voteStep (c : VoteController) : VoteEvent → VoteController
  | VoteEvent.clickUp =>
      if voteButtonDisabled c then c else { c with pending := some VoteMode.up }
  | VoteEvent.clickDown =>
      if voteButtonDisabled c then c else { c with pending := some VoteMode.down }
  | VoteEvent.commitSucceed =>
      match c.pending with
      | some m => { votes := commitVote c.votes m, pending := none }
      | none => c
  | VoteEvent.commitFail =>
      match c.pending with
      | some _ => { c with pending := none }
      | none => c

/-- Claim C2: the optimistic vote reducer maps the up action on any
count V to V plus one and the down action to V minus one, and an enabled
click applies this delta to the displayed value immediately: after the
click the displayed count has already moved while the authoritative
count is untouched and the commit is still pending. -/
theorem optimistic_delta_applied_immediately (c : VoteController) (h : c.pending = none) :
    (∀ V : Int, voteReducer V "up" = V + 1 ∧ voteReducer V "down" = V - 1) ∧
    optimisticVotes (voteStep c VoteEvent.clickUp) = c.votes + 1 ∧
    (voteStep c VoteEvent.clickUp).votes = c.votes ∧
    (voteStep c VoteEvent.clickUp).pending = some VoteMode.up ∧
    optimisticVotes (voteStep c VoteEvent.clickDown) = c.votes - 1 ∧
    (voteStep c VoteEvent.clickDown).votes = c.votes ∧
    (voteStep c VoteEvent.clickDown).pending = some VoteMode.down := by
  refine ⟨fun V => ⟨rfl, rfl⟩, ?_⟩
  simp [voteStep, voteButtonDisabled, upvotePending, downvotePending, h,
    optimisticVotes, voteReducer, modeArg]

/-- Witness for C2: an upvote click on an idle controller with ten votes
displays eleven at once. -/
theorem optimistic_delta_applied_immediately_witness :
    optimisticVotes (voteStep ⟨10, none⟩ VoteEvent.clickUp) = 10 + 1 :=
  (optimistic_delta_applied_immediately ⟨10, none⟩ rfl).2.1

/-- Claim C3: a failed commit never mutates the authoritative count, and
the displayed count reverts exactly to the pre-action authoritative
value: after the failure event the shadow is discarded and the shown
value equals the unchanged store value. -/
theorem commit_failure_rollback (c : VoteController) :
    (voteStep c VoteEvent.commitFail).votes = c.votes ∧
    optimisticVotes (voteStep c VoteEvent.commitFail) = c.votes ∧
    (voteStep c VoteEvent.commitFail).pending = none := by
  cases hp : c.pending <;> simp [voteStep, hp, optimisticVotes]

/-- Claim C4: while a commit is pending both vote buttons are disabled,
a click on a disabled button is a no-op, and therefore two rapid upvote
clicks from an idle controller produce a net local delta of exactly plus
one until the first commit settles. -/
theorem pending_disables_vote_buttons (c : VoteController) :
    (∀ m, c.pending = some m →
        voteButtonDisabled c = true ∧
        voteStep c VoteEvent.clickUp = c ∧
        voteStep c VoteEvent.clickDown = c) ∧
    (c.pending = none →
        optimisticVotes (voteStep (voteStep c VoteEvent.clickUp) VoteEvent.clickUp) =
          c.votes + 1) := by
  constructor
  · intro m hm
    cases m <;> simp [voteButtonDisabled, upvotePending, downvotePending, hm, voteStep]
  · intro h
    simp [voteStep, voteButtonDisabled, upvotePending, downvotePending, h,
      optimisticVotes, voteReducer, modeArg]

/-- Witness for C4: with an upvote pending the upvote click is ignored,
and two rapid clicks from idle show a delta of exactly plus one. -/
theorem pending_disables_vote_buttons_witness :
    voteStep ⟨5, some VoteMode.up⟩ VoteEvent.clickUp = ⟨5, some VoteMode.up⟩ ∧
    optimisticVotes (voteStep (voteStep ⟨5, none⟩ VoteEvent.clickUp) VoteEvent.clickUp) =
      5 + 1 :=
  ⟨((pending_disables_vote_buttons ⟨5, some VoteMode.up⟩).1 VoteMode.up rfl).2.1,
   (pending_disables_vote_buttons ⟨5, none⟩).2 rfl⟩

/-- Claim C7: every pending vote action is reconciled exactly once:
settling by success leaves the displayed value equal to the mutated
authoritative value, settling by failure leaves it equal to the
unchanged authoritative value, a second settle event after
reconciliation changes nothing, and the committed delta agrees with the
optimistic delta, so the display never permanently diverges from the
store. -/
theorem vote_reconciled_exactly_once (c : VoteController) (m : VoteMode)
    (h : c.pending = some m) :
    (voteStep c VoteEvent.commitSucceed).pending = none ∧
    (voteStep c VoteEvent.commitSucceed).votes = commitVote c.votes m ∧
    optimisticVotes (voteStep c VoteEvent.commitSucceed) =
      (voteStep c VoteEvent.commitSucceed).votes ∧
    (voteStep c VoteEvent.commitFail).pending = none ∧
    optimisticVotes (voteStep c VoteEvent.commitFail) = c.votes ∧
    voteStep (voteStep c VoteEvent.commitSucceed) VoteEvent.commitSucceed =
      voteStep c VoteEvent.commitSucceed ∧
    voteStep (voteStep c VoteEvent.commitFail) VoteEvent.commitFail =
      voteStep c VoteEvent.commitFail ∧
    commitVote c.votes m = voteReducer c.votes (modeArg m) := by
  cases m <;> simp [voteStep, h, optimisticVotes, commitVote, voteReducer, modeArg]

/-- Witness for C7: a pending upvote on three votes settles by success
to four votes, displayed and authoritative alike. -/
theorem vote_reconciled_exactly_once_witness :
    (voteStep ⟨3, some VoteMode.up⟩ VoteEvent.commitSucceed).votes =
      commitVote 3 VoteMode.up :=
  (vote_reconciled_exactly_once ⟨3, some VoteMode.up⟩ VoteMode.up rfl).2.1

/-- Claim C8: no operation clamps the vote count at zero: for every
integer count V, the down action yields exactly V minus one, both in the
optimistic reducer and in the commit, so counts may become negative. -/
theorem downvote_no_clamp (V : Int) :
    voteReducer V "down" = V - 1 ∧ commitVote V VoteMode.down = V - 1 ∧
    voteReducer 0 "down" = -1 ∧ voteReducer (-5) "down" = -6 :=
  ⟨rfl, rfl, rfl, rfl⟩

/-- Claim C6: upvoteOpinion increments by exactly one the votes field of
every opinion whose id matches, leaves all other fields of that opinion
and every non-matching opinion entirely unchanged, and preserves the
length and order of the list (stated position by position). -/
theorem upvoteOpinion_spec (id : Nat) (ops : List Opinion) :
    (upvoteOpinion id ops).length = ops.length ∧
    (∀ (i : Nat) (o o' : Opinion), ops[i]? = some o →
      (upvoteOpinion id ops)[i]? = some o' →
      o'.id = o.id ∧ o'.userName = o.userName ∧ o'.title = o.title ∧
      o'.body = o.body ∧ o'.votes = (if o.id = id then o.votes + 1 else o.votes)) := by
  constructor
  · simp [upvoteOpinion]
  · intro i o o' ho ho'
    rw [upvoteOpinion, List.getElem?_map, ho] at ho'
    simp only [Option.map_some'] at ho'
    by_cases h : o.id = id <;> simp [h] at ho' <;> subst ho' <;> simp [h]

/-- Witness for C6: upvoting id seven in a one-element list takes that
opinion from forty-one to forty-two votes and changes nothing else. -/
theorem upvoteOpinion_spec_witness :
    (Opinion.mk 7 "a" "t" "b" 42).id = (Opinion.mk 7 "a" "t" "b" 41).id ∧
    (Opinion.mk 7 "a" "t" "b" 42).userName = (Opinion.mk 7 "a" "t" "b" 41).userName ∧
    (Opinion.mk 7 "a" "t" "b" 42).title = (Opinion.mk 7 "a" "t" "b" 41).title ∧
    (Opinion.mk 7 "a" "t" "b" 42).body = (Opinion.mk 7 "a" "t" "b" 41).body ∧
    (Opinion.mk 7 "a" "t" "b" 42).votes =
      (if (Opinion.mk 7 "a" "t" "b" 41).id = 7 then (Opinion.mk 7 "a" "t" "b" 41).votes + 1
       else (Opinion.mk 7 "a" "t" "b" 41).votes) :=
  (upvoteOpinion_spec 7 [Opinion.mk 7 "a" "t" "b" 41]).2 0 (Opinion.mk 7 "a" "t" "b" 41)
    (Opinion.mk 7 "a" "t" "b" 42) rfl rfl

/-! ## The useInput custom hook -/

/-- The state held by one useInput instance: the userInput string state
and the didEdit flag. -/
structure InputState where
  userInput : String
  didEdit : Bool
  deriving Repr, DecidableEq

/-- The initial hook state: useState(defaultInputValue) and
useState(false). -/
def initInputState (defaultInputValue : String) : InputState :=
  { userInput := defaultInputValue, didEdit := false }

/-- The events a useInput instance reacts to: handleUserInput with the
typed value, and handleInputBlur. -/
inductive InputEvent where
  | input (value : String)
  | blur
  deriving Repr, DecidableEq

/-- One state update of the hook: handleUserInput stores the typed value
and resets didEdit to false; handleInputBlur sets didEdit to true. -/
def inputStep (s : InputState) : InputEvent → InputState
  | InputEvent.input v => { userInput := v, didEdit := false }
  | InputEvent.blur => { s with didEdit := true }

/-- The hasError value the hook returns: didEdit && !valueIsValid, where
the source computes valueIsValid as validationFn(defaultInputValue),
reading the default value rather than the current userInput. -/
def hasErrorOf (defaultInputValue : String) (validationFn : String → Bool)
    (s : InputState) : Bool :=
  s.didEdit && !(validationFn defaultInputValue)

/-- Whether a blur has occurred with no later input event; since the
hook only reacts to input and blur, this is exactly the last event being
a blur. -/
def endsWithBlur (events : List InputEvent) : Bool :=
  match events.getLast? with
  | some InputEvent.blur => true
  | _ => false

/-- The didEdit flag after any event sequence is decided by the last
event alone: false after an input, true after a blur, unchanged by an
empty sequence. -/
theorem didEdit_foldl (s : InputState) (events : List InputEvent) :
    (events.foldl inputStep s).didEdit =
      (match events.getLast? with
       | none => s.didEdit
       | some (InputEvent.input _) => false
       | some InputEvent.blur => true) := by
  induction events using List.reverseRecOn generalizing s with
  | nil => rfl
  | append_singleton es e ih =>
      rw [List.foldl_append]
      cases e <;> simp [inputStep, List.getLast?_concat]

/-- Claim C9: for every sequence of input and blur events, hasError is
true exactly when a blur occurred with no later input event and the
validation function rejects the default input value; the formula never
mentions the typed values carried by the input events, so the current
typed value never influences hasError, and any keystroke makes hasError
false until the next blur. -/
theorem useInput_hasError_characterization (defaultInputValue : String)
    (validationFn : String → Bool) (events : List InputEvent) :
    (hasErrorOf defaultInputValue validationFn
        (events.foldl inputStep (initInputState defaultInputValue)) =
      (endsWithBlur events && !(validationFn defaultInputValue))) ∧
    (∀ (s : InputState) (v : String),
      hasErrorOf defaultInputValue validationFn (inputStep s (InputEvent.input v)) =
        false) := by
  constructor
  · rw [hasErrorOf, didEdit_foldl, endsWithBlur]
    rcases h : events.getLast? with _ | e
    · simp [initInputState]
    · cases e <;> simp
  · intro s v
    simp [hasErrorOf, inputStep]

end AdvReactForm
